import Mathlib

/-!
Shallow embedding of the autoVolatility3 repository (src/autovol3.py and
src/analyzer.py) and proofs about its plugin catalog, per-plugin runner,
OS prober, bounded-concurrency loop, and initialization order.

Modelling conventions:
* File contents are byte lists (`Bytes`); the output directory is a flat
  map from file name to contents (`FS`), `none` meaning the file is absent.
* The external tool invocation is a parameter
  `exec : String → Except String (Bytes × Bytes)` returning the captured
  (stdout, stderr) pair on success or the exception message on failure.
* Log/print messages relevant to the claims are recorded as `LogEntry`
  values appended to a list.
-/

namespace AutoVol

/-- Captured raw bytes of a stream or a file. -/
abbrev Bytes := List Nat

/-- The output directory as a flat file store: name to contents. -/
abbrev FS := String → Option Bytes

/-- Store `v` under file name `k` (creating or overwriting). -/
def fsSet (fs : FS) (k : String) (v : Bytes) : FS :=
  fun k2 => if k2 = k then some v else fs k2

/-- Delete file name `k` (like os.remove / Path.unlink). -/
def fsRemove (fs : FS) (k : String) : FS :=
  fun k2 => if k2 = k then none else fs k2

/-- An empty output directory. -/
def emptyFS : FS := fun _ => none

/-- Messages the scripts emit that matter to the claims: the analyzer's
`logger.info`/`logger.error`/`logger.warning`, and autovol3's prints. -/
inductive LogEntry where
  | info (plugin : String)
  | error (plugin : String) (msg : String)
  | warn (osType : String) (pyExec : String) (msg : String)
deriving DecidableEq

/-- `plugin.replace('.', '_')` from analyzer.py line 103 / autovol3.py
line 131; the needle is the single character `.`, so Python's replace is
exactly a per-character substitution. -/
def sanitize (p : String) : String :=
  ⟨p.data.map (fun c => if c = '.' then '_' else c)⟩

/-- `f"{plugin.replace('.', '_')}.txt"` (autovol3.py line 131,
analyzer.py line 103). -/
def outFileName (p : String) : String := sanitize p ++ ".txt"

/-- `f"{plugin.replace('.', '_')}_errors.txt"` (autovol3.py line 132,
analyzer.py line 104). -/
def errFileName (p : String) : String := sanitize p ++ "_errors.txt"

/-! ## The scan catalog of autovol3.py (lines 86-121) -/

/-- The `'minimal'` plugin list (autovol3.py lines 87-92). -/
def minimalScanList : List String :=
  ["windows.info", "windows.pslist", "windows.pstree", "windows.cmdline"]

/-- The `'normal'` plugin list (autovol3.py lines 93-103). -/
def normalScanList : List String :=
  ["windows.info", "windows.pslist", "windows.pstree", "windows.psxview",
   "windows.modules", "windows.netscan", "windows.cmdline",
   "windows.malfind", "windows.dlllist"]

/-- The `'full'` plugin list (autovol3.py lines 104-120).  The source has
`"windows.sessions"` and `"windows.modules"` on lines 108-109 juxtaposed
with no comma between them, so Python's adjacent-string-literal
concatenation makes them a single element; the `++` below mirrors that. -/
def fullScanList : List String :=
  ["windows.info", "windows.pslist", "windows.pstree",
   "windows.sessions" ++ "windows.modules",
   "windows.dlllist", "windows.filescan", "windows.netscan",
   "windows.cmdline", "windows.sockets", "windows.malfind",
   "windows.getsids", "windows.scheduled_tasks",
   "windows.registry.hivelist", "windows.registry.printkey"]

/-- The `scan_types_plugins` dict of autovol3.py lines 86-121 as a partial
lookup (Python `dict.get` with no default returns None on a missing key). -/
def scanTypesPlugins (st : String) : Option (List String) :=
  if st = "minimal" then some minimalScanList
  else if st = "normal" then some normalScanList
  else if st = "full" then some fullScanList
  else none

/-- `scan_types_plugins.get(scan_type, scan_types_plugins['normal'])`
(autovol3.py line 124): the selected plugin list, falling back to the
`'normal'` entry for an unrecognized key. -/
def selectPlugins (st : String) : List String :=
  (scanTypesPlugins st).getD normalScanList

/-! ## The per-plugin runner of autovol3.py (lines 127-154)

For each plugin the loop body opens `output_file` and `error_file` with
mode `"w"` (creating/truncating both), runs the subprocess with stdout and
stderr streamed into them, then keeps the error file only when
`os.path.getsize(error_file) > 0`, removing it otherwise.  An exception
anywhere in the try block is caught and printed with the plugin id and the
message, and the loop moves on to the next plugin. -/

/-- One iteration of the plugin loop of `run_volatility_analysis`
(autovol3.py lines 127-154), over a state of (output directory, emitted
messages).  `exec` abstracts the `subprocess.run` invocation. -/
def runVolPlugin (exec : String → Except String (Bytes × Bytes))
    (s : FS × List LogEntry) (plugin : String) : FS × List LogEntry :=
  let out := outFileName plugin
  let err := errFileName plugin
  let fs1 := fsSet s.1 out []
  let fs2 := fsSet fs1 err []
  match exec plugin with
  | .error e => (fs2, s.2 ++ [LogEntry.error plugin e])
  | .ok (so, se) =>
    let fs3 := fsSet fs2 out so
    let fs4 := fsSet fs3 err se
    if se.length > 0 then (fs4, s.2 ++ [LogEntry.info plugin])
    else (fsRemove fs4 err, s.2 ++ [LogEntry.info plugin])

/-- The whole plugin loop of `run_volatility_analysis` over a list of
plugins (autovol3.py lines 127-154). -/
def runVolAnalysis (exec : String → Except String (Bytes × Bytes))
    (fs : FS) (log : List LogEntry) (plugins : List String) :
    FS × List LogEntry :=
  plugins.foldl (runVolPlugin exec) (fs, log)

/-! ## The analyzer.py revision of the runner (lines 15-27 and 102-125)

`VolatilityAnalyzer.__init__` (lines 23-27) sets exactly the attributes
`volatility_path`, `memory_image`, `output_dir`, then `_setup_logging`
sets `logger`, and line 27 sets `PYTHON3`.  `_run_plugin` (line 108) reads
`self.PYTHON`, which is not among them, so evaluating the arguments of
`create_subprocess_exec` raises AttributeError inside the try block. -/

/-- The instance attributes assigned by `VolatilityAnalyzer.__init__`
(analyzer.py lines 23-27 and line 32 of `_setup_logging`). -/
def analyzerInstanceAttrs : List String :=
  ["volatility_path", "memory_image", "output_dir", "logger", "PYTHON3"]

/-- Python attribute lookup on the constructed analyzer: `some` if the
attribute was assigned by `__init__`, `none` for AttributeError. -/
def getattrSelf (a : String) : Option String :=
  if a ∈ analyzerInstanceAttrs then some a else none

/-- `VolatilityAnalyzer._run_plugin` (analyzer.py lines 102-125).  The
file names are computed first (pure); the try block then evaluates
`self.PYTHON`, and only with that attribute present would the subprocess
run and the writes of lines 116-120 happen (stdout written
unconditionally, stderr written when non-empty, otherwise the error file
unlinked with `missing_ok=True`).  Any exception is caught on line 124 and
logged via `logger.error` with the plugin id and the message. -/
def runPluginAnalyzerRev (exec : String → Except String (Bytes × Bytes))
    (s : FS × List LogEntry) (plugin : String) : FS × List LogEntry :=
  let out := outFileName plugin
  let err := errFileName plugin
  match getattrSelf "PYTHON" with
  | none =>
    (s.1, s.2 ++ [LogEntry.error plugin "AttributeError: PYTHON"])
  | some _py =>
    match exec plugin with
    | .error e => (s.1, s.2 ++ [LogEntry.error plugin e])
    | .ok (so, se) =>
      let fs1 := fsSet s.1 out so
      let fs2 := if se.length > 0 then fsSet fs1 err se else fsRemove fs1 err
      (fs2, s.2 ++ [LogEntry.info plugin])

/-! ## The OS prober of analyzer.py (lines 56-77)

`detect_os` walks `os_checks` in insertion order (windows, linux, mac) and
for each candidate tries the two interpreters `python`, `python3`.  A
successful probe whose stdout contains `os_type.capitalize()` returns that
candidate at once; an exception is caught, logged via `logger.warning`
with the candidate, the interpreter and the message, and the loops
continue.  If nothing matches the function returns `"unknown"`.  The probe
itself is `self._run_command`, an attribute no revision of the class
defines, so in the shipped code every probe raises AttributeError; the
probe is therefore a parameter here, with `attrErrorProbe` the faithful
instantiation. -/

/-- Python `str.capitalize()`: first character uppercased, the rest
lowercased. -/
def pyCapitalize (s : String) : String :=
  match s.data with
  | [] => ⟨[]⟩
  | c :: cs => ⟨c.toUpper :: cs.map Char.toLower⟩

/-- Is `pre` a prefix of `l`? (boolean, for Python's `in`). -/
def charsPrefix : List Char → List Char → Bool
  | [], _ => true
  | _ :: _, [] => false
  | a :: as, b :: bs => a = b && charsPrefix as bs

/-- Does `needle` occur as a contiguous run inside `hay`? -/
def charsInfix (needle : List Char) : List Char → Bool
  | [] => charsPrefix needle []
  | h :: t => charsPrefix needle (h :: t) || charsInfix needle t

/-- Python's substring test `needle in hay`. -/
def strContainsSub (needle : String) (hay : String) : Bool :=
  charsInfix needle.data hay.data

/-- The `os_checks` dict of analyzer.py lines 57-61, in insertion order. -/
def osChecks : List (String × String) :=
  [("windows", "windows.info"), ("linux", "linux.info"), ("mac", "mac.info")]

/-- The interpreter list of analyzer.py line 64. -/
def pythonExecs : List String := ["python", "python3"]

/-- The inner `for python_exec in ...` loop of `detect_os` (analyzer.py
lines 64-74) for one candidate: returns `some osType` on the first probe
whose stdout contains the capitalized marker, logging a warning for every
probe that raises before that. -/
def probeExecs (probe : String → String → Except String String)
    (osType plugin : String) :
    List String → List LogEntry → Option String × List LogEntry
  | [], log => (none, log)
  | ex :: exs, log =>
    match probe ex plugin with
    | .ok out =>
      if strContainsSub (pyCapitalize osType) out then (some osType, log)
      else probeExecs probe osType plugin exs log
    | .error e =>
      probeExecs probe osType plugin exs (log ++ [LogEntry.warn osType ex e])

/-- The outer `for os_type, plugin in os_checks.items()` loop of
`detect_os` (analyzer.py lines 63-77). -/
def detectOsGo (probe : String → String → Except String String) :
    List (String × String) → List LogEntry → String × List LogEntry
  | [], log => ("unknown", log)
  | (osType, plugin) :: rest, log =>
    match probeExecs probe osType plugin pythonExecs log with
    | (some r, log2) => (r, log2)
    | (none, log2) => detectOsGo probe rest log2

/-- `VolatilityAnalyzer.detect_os` (analyzer.py lines 56-77), returning
the detected OS string and the warnings logged along the way. -/
def detectOs (probe : String → String → Except String String) :
    String × List LogEntry :=
  detectOsGo probe osChecks []

/-- The faithful probe of the shipped code: `self._run_command` is defined
nowhere in the class, so every probe attempt raises AttributeError. -/
def attrErrorProbe : String → String → Except String String :=
  fun _ _ => .error "AttributeError: run command helper is missing"

/-- Does the candidate `(osType, plugin)` match under `probe`: some
interpreter's probe succeeds with stdout containing the capitalized
marker?  An errored probe counts as a non-match.  This is the spec-side
description (§4.2 of the spec) that `detectOs` is proved to refine. -/
def candidateMatches (probe : String → String → Except String String)
    (c : String × String) : Bool :=
  pythonExecs.any fun ex =>
    match probe ex c.2 with
    | .ok out => strContainsSub (pyCapitalize c.1) out
    | .error _ => false

/-- Spec-side description of the prober result: the first candidate in the
fixed order windows, linux, mac that matches, else `"unknown"`. -/
def detectOsSpec (probe : String → String → Except String String) : String :=
  match osChecks.find? (candidateMatches probe) with
  | some c => c.1
  | none => "unknown"

/-! ## The bounded-concurrency loop of analyzer.py (lines 127-141)

`run_analysis` keeps a set `running_tasks`; before creating each task it
waits, while `len(running_tasks) >= max_concurrent`, for at least one task
to finish (`asyncio.wait` with FIRST_COMPLETED, which returns the pending
set).  We model the size of `running_tasks` (an upper bound on the number
of active `_run_plugin` invocations, since a finished task leaves the set
only when observed) and a completion oracle giving how many tasks the
scheduler finishes at each wait; the oracle value is clamped to the range
`[1, running]` that `asyncio.wait(..., FIRST_COMPLETED)` guarantees on a
non-empty set.  The trace records the set size after every wait and after
every task creation. -/

/-- The `while len(running_tasks) >= max_concurrent` loop (analyzer.py
lines 134-138).  `fuel` bounds the recursion; called with `fuel = r` it
never runs out when `K ≥ 1`, since each wait completes at least one task.
Returns the new size, the sizes observed after each wait, and the unused
rest of the oracle. -/
def waitForSlot (K : Nat) : Nat → Nat → List Nat → Nat × List Nat × List Nat
  | 0, r, oracle => (r, [], oracle)
  | _fuel + 1, r, oracle =>
    if r < K then (r, [], oracle)
    else
      let d := max (min (oracle.headD 1) r) 1
      let r2 := r - d
      let res := waitForSlot K _fuel r2 oracle.tail
      (res.1, r2 :: res.2.1, res.2.2)

/-- The `for plugin in plugins` loop of `run_analysis` (analyzer.py lines
133-141): wait for a slot, create the task, record the new size. -/
def runLoop (K : Nat) : List String → Nat → List Nat → List Nat
  | [], _, _ => []
  | _p :: ps, r, oracle =>
    let w := waitForSlot K r r oracle
    w.2.1 ++ ((w.1 + 1) :: runLoop K ps (w.1 + 1) w.2.2)

/-- The sizes of `running_tasks` observed at every step of
`run_analysis(scan_type, max_concurrent = K)` (analyzer.py lines
131-141), starting from the empty set. -/
def runAnalysisTrace (K : Nat) (plugins : List String)
    (oracle : List Nat) : List Nat :=
  runLoop K plugins 0 oracle

/-! ## The catalog lookup of analyzer.py (lines 79-100)

`_get_plugins_for_scan` opens `scans/windows_scan.json` only when
`scan_os == "windows"`; the loaded table is abstracted as
`jsonFile : Except String (String → Option (List String))` (error =
FileNotFoundError or JSONDecodeError, both logged and re-raised), wrapped
in `Option` for a missing file.  Note Python evaluates the default
argument `scan_types_plugins['normal']` of `.get` eagerly, so a missing
`'normal'` key raises KeyError even for a recognized `scan_type` — and
KeyError is caught by none of the except clauses.  When
`scan_os != "windows"` the if-body is skipped, no except clause fires,
and the function falls off its end: Python returns `None`, modelled as
`.ok none`. -/

/-- `VolatilityAnalyzer._get_plugins_for_scan` (analyzer.py lines
79-100).  `.error` is an uncaught/re-raised exception; `.ok (some l)` is
a returned list; `.ok none` is Python's implicit `return None`. -/
def getPluginsForScanA
    (jsonFile : Except String (String → Option (List String)))
    (scanType : String) (scanOs : String) :
    Except String (Option (List String)) :=
  if scanOs = "windows" then
    match jsonFile with
    | .error e => .error e
    | .ok tbl =>
      match tbl "normal" with
      | none => .error "KeyError: normal"
      | some nl => .ok (some ((tbl scanType).getD nl))
  else
    .ok none

/-! ## Construction order of VolatilityAnalyzer (analyzer.py lines 15-54)

`__init__` resolves the two input paths, calls `_setup_output_dir` — which
only picks a default timestamped path under /tmp when none was given and
`resolve()`s it, creating nothing on disk — and then `_setup_logging`,
whose `logging.FileHandler(self.output_dir / 'volatility_analysis.log')`
(line 37) opens the log file immediately and raises FileNotFoundError when
the directory does not exist.  `run_analysis` calls
`self.output_dir.mkdir(parents=True, exist_ok=True)` only on line 129,
after construction. -/

/-- `logging.FileHandler(dir / fname)`: opens the file for append,
creating the file but not the directory; raises FileNotFoundError when
the parent directory is absent. -/
def fileHandlerOpen (dirs : List String) (dir fname : String) :
    Except String String :=
  if dir ∈ dirs then .ok (dir ++ "/" ++ fname) else .error "FileNotFoundError"

/-- `VolatilityAnalyzer.__init__` (analyzer.py lines 15-27) over the set
of directories existing on disk: `_setup_output_dir` chooses the output
directory (the given one, or the default fresh timestamped path) without
creating it, then `_setup_logging` opens the log file inside it.  Returns
the opened log path, or the exception `__init__` raises. -/
def analyzerInit (dirs : List String) (outputDirArg : Option String)
    (defaultTimestampedDir : String) : Except String String :=
  let outDir := outputDirArg.getD defaultTimestampedDir
  fileHandlerOpen dirs outDir "volatility_analysis.log"

/-! ## Demo invocation results used by the witnesses -/

/-- A sample invocation outcome: stdout bytes with a non-empty stderr. -/
def execDemoOk : String → Except String (Bytes × Bytes) :=
  fun _ => .ok ([72, 105], [101])

/-- A sample batch invocation where exactly `windows.info` raises. -/
def execDemoMixed : String → Except String (Bytes × Bytes) :=
  fun p =>
    if p = "windows.info" then .error "FileNotFoundError"
    else .ok ([104, 105], [])

/-! ## Shared lemmas about file names and the file-store -/

theorem out_ne_err (p : String) : outFileName p ≠ errFileName p := by
  unfold outFileName errFileName
  intro h
  have h2 : (sanitize p ++ ".txt").length
      = (sanitize p ++ "_errors.txt").length := congrArg String.length h
  rw [String.length_append, String.length_append,
    show (".txt" : String).length = 4 from rfl,
    show ("_errors.txt" : String).length = 11 from rfl] at h2
  omega

theorem fsSet_self (fs : FS) (k : String) (v : Bytes) :
    fsSet fs k v k = some v := by simp [fsSet]

theorem fsSet_other (fs : FS) (k k2 : String) (v : Bytes) (h : k2 ≠ k) :
    fsSet fs k v k2 = fs k2 := by simp [fsSet, h]

theorem fsRemove_self (fs : FS) (k : String) : fsRemove fs k k = none := by
  simp [fsRemove]

theorem fsRemove_other (fs : FS) (k k2 : String) (h : k2 ≠ k) :
    fsRemove fs k k2 = fs k2 := by simp [fsRemove, h]

/-! ## Lemmas about the autovol3 per-plugin runner -/

theorem runVolPlugin_out (exec : String → Except String (Bytes × Bytes))
    (s : FS × List LogEntry) (p : String) (so se : Bytes)
    (h : exec p = .ok (so, se)) :
    (runVolPlugin exec s p).1 (outFileName p) = some so := by
  unfold runVolPlugin
  rw [h]
  by_cases hse : se.length > 0 <;>
    simp [hse, fsSet, fsRemove, out_ne_err p]

theorem runVolPlugin_errfile_nonempty
    (exec : String → Except String (Bytes × Bytes))
    (s : FS × List LogEntry) (p : String) (so se : Bytes)
    (h : exec p = .ok (so, se)) (hse : se ≠ []) :
    (runVolPlugin exec s p).1 (errFileName p) = some se := by
  unfold runVolPlugin
  rw [h]
  have hpos : se.length > 0 := List.length_pos.mpr hse
  simp [hpos, fsSet]

theorem runVolPlugin_errfile_empty
    (exec : String → Except String (Bytes × Bytes))
    (s : FS × List LogEntry) (p : String) (so : Bytes)
    (h : exec p = .ok (so, [])) :
    (runVolPlugin exec s p).1 (errFileName p) = none := by
  unfold runVolPlugin
  rw [h]
  simp [fsRemove]

theorem runVolPlugin_preserve
    (exec : String → Except String (Bytes × Bytes))
    (s : FS × List LogEntry) (p : String) (k : String)
    (h1 : k ≠ outFileName p) (h2 : k ≠ errFileName p) :
    (runVolPlugin exec s p).1 k = s.1 k := by
  unfold runVolPlugin
  cases hx : exec p with
  | error e => simp [fsSet, h1, h2]
  | ok r =>
    obtain ⟨so, se⟩ := r
    by_cases hse : se.length > 0 <;>
      simp [hse, fsSet, fsRemove, h1, h2]

theorem runVolPlugin_log_mono
    (exec : String → Except String (Bytes × Bytes))
    (s : FS × List LogEntry) (p : String) :
    ∃ t, (runVolPlugin exec s p).2 = s.2 ++ t := by
  unfold runVolPlugin
  cases hx : exec p with
  | error e => exact ⟨[LogEntry.error p e], rfl⟩
  | ok r =>
    obtain ⟨so, se⟩ := r
    by_cases hse : se.length > 0 <;> simp [hse]

theorem runVolPlugin_log_error
    (exec : String → Except String (Bytes × Bytes))
    (s : FS × List LogEntry) (p : String) (e : String)
    (h : exec p = .error e) :
    (runVolPlugin exec s p).2 = s.2 ++ [LogEntry.error p e] := by
  unfold runVolPlugin
  rw [h]

theorem runVolFold_log_mono
    (exec : String → Except String (Bytes × Bytes))
    (ps : List String) (s : FS × List LogEntry) :
    ∃ t, (ps.foldl (runVolPlugin exec) s).2 = s.2 ++ t := by
  induction ps generalizing s with
  | nil => exact ⟨[], by simp⟩
  | cons a t ih =>
    obtain ⟨t1, h1⟩ := runVolPlugin_log_mono exec s a
    obtain ⟨t2, h2⟩ := ih (runVolPlugin exec s a)
    exact ⟨t1 ++ t2, by simp [List.foldl_cons, h2, h1]⟩

theorem runVolFold_preserve
    (exec : String → Except String (Bytes × Bytes))
    (ps : List String) (s : FS × List LogEntry) (k : String)
    (h : ∀ r ∈ ps, k ≠ outFileName r ∧ k ≠ errFileName r) :
    (ps.foldl (runVolPlugin exec) s).1 k = s.1 k := by
  induction ps generalizing s with
  | nil => simp
  | cons a t ih =>
    have ha := h a (by simp)
    rw [List.foldl_cons, ih _ (fun r hr => h r (by simp [hr])),
      runVolPlugin_preserve exec s a k ha.1 ha.2]

theorem runVolFold_error_mem
    (exec : String → Except String (Bytes × Bytes))
    (ps : List String) (s : FS × List LogEntry) (p : String) (e : String)
    (hp : p ∈ ps) (he : exec p = .error e) :
    LogEntry.error p e ∈ (ps.foldl (runVolPlugin exec) s).2 := by
  induction ps generalizing s with
  | nil => cases hp
  | cons a t ih =>
    rw [List.foldl_cons]
    rcases List.mem_cons.mp hp with h1 | h1
    · subst h1
      obtain ⟨t2, h2⟩ := runVolFold_log_mono exec t (runVolPlugin exec s p)
      rw [h2, runVolPlugin_log_error exec s p e he]
      simp
    · exact ih (runVolPlugin exec s a) h1

theorem runVolFold_out
    (exec : String → Except String (Bytes × Bytes))
    (ps : List String) (s : FS × List LogEntry) (q : String)
    (so se : Bytes) (hq : q ∈ ps) (hok : exec q = .ok (so, se))
    (hout : ∀ r ∈ ps, r ≠ q → outFileName r ≠ outFileName q)
    (herr : ∀ r ∈ ps, errFileName r ≠ outFileName q) :
    (ps.foldl (runVolPlugin exec) s).1 (outFileName q) = some so := by
  induction ps generalizing s with
  | nil => cases hq
  | cons a t ih =>
    rw [List.foldl_cons]
    by_cases hqt : q ∈ t
    · exact ih (runVolPlugin exec s a) hqt
        (fun r hr => hout r (by simp [hr]))
        (fun r hr => herr r (by simp [hr]))
    · have haq : a = q := by
        rcases List.mem_cons.mp hq with h1 | h1
        · exact h1.symm
        · exact absurd h1 hqt
      subst haq
      rw [runVolFold_preserve exec t (runVolPlugin exec s a)
        (outFileName a) ?hside]
      · exact runVolPlugin_out exec s a so se hok
      case hside =>
        intro r hr
        refine ⟨?_, (herr r (by simp [hr])).symm⟩
        have hra : r ≠ a := fun hcontra => hqt (hcontra ▸ hr)
        exact (hout r (by simp [hr]) hra).symm

/-! ## Lemmas about the OS prober -/

/-- Whether one interpreter's probe for a candidate succeeds with the
marker present (an errored probe counts as false). -/
def execMatch (probe : String → String → Except String String)
    (osType plugin ex : String) : Bool :=
  match probe ex plugin with
  | .ok out => strContainsSub (pyCapitalize osType) out
  | .error _ => false

theorem probeExecs_fst (probe : String → String → Except String String)
    (osType plugin : String) (exs : List String) (log : List LogEntry) :
    (probeExecs probe osType plugin exs log).1
      = if exs.any (execMatch probe osType plugin) then some osType
        else none := by
  induction exs generalizing log with
  | nil => simp [probeExecs]
  | cons ex t ih =>
    unfold probeExecs
    cases hx : probe ex plugin with
    | ok out =>
      by_cases hm : strContainsSub (pyCapitalize osType) out <;>
        simp [hm, ih, execMatch, hx]
    | error e => simp [ih, execMatch, hx]

theorem probeExecs_log_mono
    (probe : String → String → Except String String)
    (osType plugin : String) (exs : List String) (log : List LogEntry) :
    ∃ t, (probeExecs probe osType plugin exs log).2 = log ++ t := by
  induction exs generalizing log with
  | nil => exact ⟨[], by simp [probeExecs]⟩
  | cons ex t ih =>
    unfold probeExecs
    cases hx : probe ex plugin with
    | ok out =>
      by_cases hm : strContainsSub (pyCapitalize osType) out
      · exact ⟨[], by simp [hm]⟩
      · simpa [hm] using ih log
    | error e =>
      obtain ⟨t2, h2⟩ := ih (log ++ [LogEntry.warn osType ex e])
      exact ⟨[LogEntry.warn osType ex e] ++ t2, by simp [h2]⟩

theorem probeExecs_warn_mem
    (probe : String → String → Except String String)
    (osType plugin : String) (exs : List String) (log : List LogEntry)
    (ex : String) (e : String)
    (hall : ∀ x ∈ exs, execMatch probe osType plugin x = false)
    (hex : ex ∈ exs) (he : probe ex plugin = .error e) :
    LogEntry.warn osType ex e ∈ (probeExecs probe osType plugin exs log).2 := by
  induction exs generalizing log with
  | nil => cases hex
  | cons x t ih =>
    unfold probeExecs
    cases hx : probe x plugin with
    | ok out =>
      have hm : strContainsSub (pyCapitalize osType) out = false := by
        have := hall x (by simp)
        simpa [execMatch, hx] using this
      rcases List.mem_cons.mp hex with h1 | h1
      · subst h1
        rw [hx] at he
        cases he
      · simp only [hm, Bool.false_eq_true, if_false]
        exact ih log (fun y hy => hall y (by simp [hy])) h1
    | error e1 =>
      rcases List.mem_cons.mp hex with h1 | h1
      · subst h1
        rw [hx] at he
        injection he with he1
        subst he1
        obtain ⟨t2, h2⟩ := probeExecs_log_mono probe osType plugin t
          (log ++ [LogEntry.warn osType ex e1])
        rw [h2]
        simp
      · exact ih _ (fun y hy => hall y (by simp [hy])) h1

theorem detectOsGo_fst (probe : String → String → Except String String)
    (cands : List (String × String)) (log : List LogEntry) :
    (detectOsGo probe cands log).1
      = (match cands.find? (candidateMatches probe) with
         | some c => c.1
         | none => "unknown") := by
  induction cands generalizing log with
  | nil => simp [detectOsGo]
  | cons c t ih =>
    obtain ⟨osType, plugin⟩ := c
    unfold detectOsGo
    have hfst := probeExecs_fst probe osType plugin pythonExecs log
    by_cases hc : candidateMatches probe (osType, plugin)
    · have hany : pythonExecs.any (execMatch probe osType plugin) = true := by
        simpa [candidateMatches, execMatch] using hc
      rw [hany] at hfst
      simp only [if_true] at hfst
      rw [List.find?_cons_of_pos _ hc]
      cases hpe : probeExecs probe osType plugin pythonExecs log with
      | mk fst snd =>
        rw [hpe] at hfst
        simp at hfst
        subst hfst
        rfl
    · have hany : pythonExecs.any (execMatch probe osType plugin) = false := by
        have : candidateMatches probe (osType, plugin) = false :=
          Bool.eq_false_iff.mpr hc
        simpa [candidateMatches, execMatch] using this
      rw [hany] at hfst
      simp only [Bool.false_eq_true, if_false] at hfst
      rw [List.find?_cons_of_neg _ hc]
      cases hpe : probeExecs probe osType plugin pythonExecs log with
      | mk fst snd =>
        rw [hpe] at hfst
        simp at hfst
        subst hfst
        exact ih snd

theorem detectOsGo_log_mono
    (probe : String → String → Except String String)
    (cands : List (String × String)) (log : List LogEntry) :
    ∃ t, (detectOsGo probe cands log).2 = log ++ t := by
  induction cands generalizing log with
  | nil => exact ⟨[], by simp [detectOsGo]⟩
  | cons c t ih =>
    obtain ⟨osType, plugin⟩ := c
    unfold detectOsGo
    obtain ⟨t1, h1⟩ := probeExecs_log_mono probe osType plugin pythonExecs log
    cases hpe : probeExecs probe osType plugin pythonExecs log with
    | mk fst snd =>
      rw [hpe] at h1
      simp only at h1
      subst h1
      cases fst with
      | none =>
        obtain ⟨t2, h2⟩ := ih (log ++ t1)
        exact ⟨t1 ++ t2, by simp [h2]⟩
      | some r => exact ⟨t1, rfl⟩

theorem detectOsGo_warn_mem
    (probe : String → String → Except String String)
    (cands : List (String × String)) (log : List LogEntry)
    (osType plugin ex e : String)
    (hall : ∀ c ∈ cands, candidateMatches probe c = false)
    (hc : (osType, plugin) ∈ cands) (hex : ex ∈ pythonExecs)
    (he : probe ex plugin = .error e) :
    LogEntry.warn osType ex e ∈ (detectOsGo probe cands log).2 := by
  induction cands generalizing log with
  | nil => cases hc
  | cons c t ih =>
    obtain ⟨os1, pl1⟩ := c
    unfold detectOsGo
    have hc1 : candidateMatches probe (os1, pl1) = false := hall _ (by simp)
    have hany : pythonExecs.any (execMatch probe os1 pl1) = false := by
      simpa [candidateMatches, execMatch] using hc1
    have hfst := probeExecs_fst probe os1 pl1 pythonExecs log
    rw [hany] at hfst
    simp only [Bool.false_eq_true, if_false] at hfst
    cases hpe : probeExecs probe os1 pl1 pythonExecs log with
    | mk fst snd =>
      rw [hpe] at hfst
      simp at hfst
      subst hfst
      rcases List.mem_cons.mp hc with h1 | h1
      · have hos : os1 = osType := congrArg Prod.fst h1.symm
        have hpl : pl1 = plugin := congrArg Prod.snd h1.symm
        subst hos
        subst hpl
        have hmem := probeExecs_warn_mem probe os1 pl1 pythonExecs log ex e
          (by
            intro x hx
            exact Bool.eq_false_iff.mpr fun hm =>
              (Bool.eq_false_iff.mp hany)
                (List.any_eq_true.mpr ⟨x, hx, hm⟩))
          hex he
        rw [hpe] at hmem
        obtain ⟨t2, h2⟩ := detectOsGo_log_mono probe t snd
        rw [h2]
        exact List.mem_append_left t2 hmem
      · exact ih snd (fun c hcc => hall c (by simp [hcc])) h1

/-! ## Lemmas about the bounded-concurrency loop -/

theorem waitForSlot_lt (K : Nat) (hK : 1 ≤ K) :
    ∀ fuel r oracle, r ≤ fuel →
      (waitForSlot K fuel r oracle).1 < K := by
  intro fuel
  induction fuel with
  | zero =>
    intro r oracle hr
    have : r = 0 := Nat.le_zero.mp hr
    subst this
    simpa [waitForSlot] using hK
  | succ n ih =>
    intro r oracle hr
    unfold waitForSlot
    by_cases hlt : r < K
    · simp [hlt]
    · have hrK : K ≤ r := Nat.le_of_not_lt hlt
      have hr1 : 1 ≤ r := Nat.le_trans hK hrK
      simp only [hlt, if_false]
      apply ih
      omega

theorem waitForSlot_trace_le (K : Nat) :
    ∀ fuel r oracle, ∀ x ∈ (waitForSlot K fuel r oracle).2.1, x ≤ r := by
  intro fuel
  induction fuel with
  | zero => intro r oracle x hx; simp [waitForSlot] at hx
  | succ n ih =>
    intro r oracle x hx
    unfold waitForSlot at hx
    by_cases hlt : r < K
    · simp [hlt] at hx
    · simp only [hlt, if_false, List.mem_cons] at hx
      rcases hx with h1 | h1
      · omega
      · have := ih _ _ x h1
        omega

theorem runLoop_bound (K : Nat) (hK : 1 ≤ K) :
    ∀ ps r oracle, r ≤ K → ∀ x ∈ runLoop K ps r oracle, x ≤ K := by
  intro ps
  induction ps with
  | nil => intro r oracle _ x hx; simp [runLoop] at hx
  | cons p t ih =>
    intro r oracle hr x hx
    unfold runLoop at hx
    simp only [List.mem_append, List.mem_cons] at hx
    rcases hx with h1 | h1 | h1
    · exact Nat.le_trans (waitForSlot_trace_le K r r oracle x h1) hr
    · have := waitForSlot_lt K hK r r oracle (Nat.le_refl r)
      omega
    · have hlt := waitForSlot_lt K hK r r oracle (Nat.le_refl r)
      exact ih _ _ hlt x h1

/-! ## The claims -/

/-- Claim C1: for every plugin list and every concurrency bound `K ≥ 1`,
at no point during `run_analysis` does the size of the running-task set —
an upper bound on the number of simultaneously active `_run_plugin`
invocations — exceed `K`: every entry of the observed trace is at most
`K`, so a new task is created only once a running one has completed
whenever `K` tasks were in flight. -/
theorem claim_C1_concurrency_bound (K : Nat) (plugins : List String)
    (oracle : List Nat) (hK : 1 ≤ K) :
    (runAnalysisTrace K plugins oracle).all (fun c => decide (c ≤ K)) = true := by
  rw [List.all_eq_true]
  intro x hx
  exact decide_eq_true
    (runLoop_bound K hK plugins 0 oracle (Nat.zero_le K) x hx)

/-- Concrete instance of claim C1: the minimal scan with bound 2 under a
scheduler that completes one task per wait. -/
theorem claim_C1_witness :
    1 ≤ 2
    ∧ (runAnalysisTrace 2 minimalScanList [1, 1]).all
        (fun c => decide (c ≤ 2)) = true :=
  ⟨by decide, claim_C1_concurrency_bound 2 minimalScanList [1, 1] (by decide)⟩

/-- Claim C2: when the plugin invocation yields captured streams
`(so, se)`, the runner writes the stdout bytes to the plugin's output
file unconditionally, and afterwards the sibling error file holds exactly
the stderr bytes if and only if stderr was non-empty; if stderr was
empty the error file is absent regardless of what was there before. -/
theorem claim_C2_plugin_result_files
    (exec : String → Except String (Bytes × Bytes))
    (fs : FS) (log : List LogEntry) (p : String) (so se : Bytes)
    (h : exec p = .ok (so, se)) :
    (runVolPlugin exec (fs, log) p).1 (outFileName p) = some so
    ∧ (se ≠ [] →
        (runVolPlugin exec (fs, log) p).1 (errFileName p) = some se)
    ∧ (se = [] →
        (runVolPlugin exec (fs, log) p).1 (errFileName p) = none) := by
  refine ⟨runVolPlugin_out exec (fs, log) p so se h,
    fun hne => runVolPlugin_errfile_nonempty exec (fs, log) p so se h hne,
    fun hemp => ?_⟩
  subst hemp
  exact runVolPlugin_errfile_empty exec (fs, log) p so h

/-- Concrete instance of claim C2: an invocation with non-empty stderr
starting from an empty output directory. -/
theorem claim_C2_witness :
    execDemoOk "windows.pslist" = .ok ([72, 105], [101])
    ∧ (runVolPlugin execDemoOk (emptyFS, []) "windows.pslist").1
        (outFileName "windows.pslist") = some [72, 105]
    ∧ (([101] : Bytes) ≠ [] →
        (runVolPlugin execDemoOk (emptyFS, []) "windows.pslist").1
          (errFileName "windows.pslist") = some [101]) := by
  have h := claim_C2_plugin_result_files execDemoOk emptyFS []
    "windows.pslist" [72, 105] [101] rfl
  exact ⟨rfl, h.1, h.2.1⟩

/-- Claim C3: an exception raised by one plugin's invocation is caught
inside that plugin's loop iteration, recorded with the plugin identifier
and the message, and does not propagate: every other plugin of the batch
whose invocation succeeds still has its output file written with its
captured stdout. -/
theorem claim_C3_error_isolation
    (exec : String → Except String (Bytes × Bytes))
    (fs : FS) (log : List LogEntry) (plugins : List String)
    (p e q : String) (so se : Bytes)
    (hp : p ∈ plugins) (he : exec p = .error e)
    (hq : q ∈ plugins) (hok : exec q = .ok (so, se))
    (hout : ∀ r ∈ plugins, r ≠ q → outFileName r ≠ outFileName q)
    (herr : ∀ r ∈ plugins, errFileName r ≠ outFileName q) :
    (runVolAnalysis exec fs log plugins).1 (outFileName q) = some so
    ∧ LogEntry.error p e ∈ (runVolAnalysis exec fs log plugins).2 := by
  unfold runVolAnalysis
  exact ⟨runVolFold_out exec plugins (fs, log) q so se hq hok hout herr,
    runVolFold_error_mem exec plugins (fs, log) p e hp he⟩

/-- Concrete instance of claim C3: a two-plugin batch in which
`windows.info` raises and `windows.pslist` succeeds. -/
theorem claim_C3_witness :
    execDemoMixed "windows.info" = .error "FileNotFoundError"
    ∧ (runVolAnalysis execDemoMixed emptyFS []
        ["windows.info", "windows.pslist"]).1
        (outFileName "windows.pslist") = some [104, 105]
    ∧ LogEntry.error "windows.info" "FileNotFoundError"
        ∈ (runVolAnalysis execDemoMixed emptyFS []
            ["windows.info", "windows.pslist"]).2 := by
  have h := claim_C3_error_isolation execDemoMixed emptyFS []
    ["windows.info", "windows.pslist"]
    "windows.info" "FileNotFoundError" "windows.pslist" [104, 105] []
    (by decide) rfl (by decide) rfl (by decide) (by decide)
  exact ⟨rfl, h.1, h.2⟩

/-- Claim C4: for every recognized key of the catalog the selection
returns that key's non-empty stored list, and for every unrecognized key
it returns exactly the list stored under `normal`. -/
theorem claim_C4_catalog_selection :
    (∀ st l, scanTypesPlugins st = some l → selectPlugins st = l ∧ l ≠ [])
    ∧ ∀ st, scanTypesPlugins st = none →
        selectPlugins st = normalScanList := by
  constructor
  · intro st l h
    constructor
    · unfold selectPlugins
      rw [h]
      rfl
    · unfold scanTypesPlugins at h
      split_ifs at h with h1 h2 h3
      · injection h with h4
        subst h4
        decide
      · injection h with h4
        subst h4
        decide
      · injection h with h4
        subst h4
        decide
  · intro st h
    unfold selectPlugins
    rw [h]
    rfl

/-- Concrete instance of claim C4: the recognized key `minimal` and the
unrecognized key `registry`. -/
theorem claim_C4_witness :
    scanTypesPlugins "minimal" = some minimalScanList
    ∧ selectPlugins "minimal" = minimalScanList
    ∧ minimalScanList ≠ []
    ∧ scanTypesPlugins "registry" = none
    ∧ selectPlugins "registry" = normalScanList := by
  have h := claim_C4_catalog_selection
  have h1 : scanTypesPlugins "minimal" = some minimalScanList := rfl
  have h2 : scanTypesPlugins "registry" = none := rfl
  exact ⟨h1, (h.1 "minimal" minimalScanList h1).1,
    (h.1 "minimal" minimalScanList h1).2, h2, h.2 "registry" h2⟩

/-- Claim C5: `detect_os` refines the first-match description in which an
invocation error for a candidate is a non-match and probing continues
through the fixed order windows, linux, mac; in particular when no
candidate's probe stdout contains its capitalized marker the result is
`unknown` without any exception escaping, and every probe error
encountered is logged as a warning with the candidate, the interpreter
and the message. -/
theorem claim_C5_probe_errors_nonfatal
    (probe : String → String → Except String String) :
    (detectOs probe).1 = detectOsSpec probe
    ∧ ((osChecks.all fun c => !candidateMatches probe c) = true →
        (detectOs probe).1 = "unknown"
        ∧ ∀ osType plugin ex e, (osType, plugin) ∈ osChecks →
            ex ∈ pythonExecs → probe ex plugin = .error e →
            LogEntry.warn osType ex e ∈ (detectOs probe).2) := by
  constructor
  · unfold detectOs detectOsSpec
    exact detectOsGo_fst probe osChecks []
  · intro hall
    have hallf : ∀ c ∈ osChecks, candidateMatches probe c = false := by
      intro c hcc
      have := List.all_eq_true.mp hall c hcc
      simpa using this
    constructor
    · unfold detectOs
      rw [detectOsGo_fst]
      have hnone : osChecks.find? (candidateMatches probe) = none :=
        List.find?_eq_none.mpr (fun x hx => by simp [hallf x hx])
      rw [hnone]
    · intro osType plugin ex e hc hex he
      unfold detectOs
      exact detectOsGo_warn_mem probe osChecks [] osType plugin ex e
        hallf hc hex he

/-- Concrete instance of claim C5: the shipped probe, whose helper
attribute is missing, errors on every attempt; detection returns
`unknown` and logs warnings. -/
theorem claim_C5_witness :
    (osChecks.all fun c => !candidateMatches attrErrorProbe c) = true
    ∧ (detectOs attrErrorProbe).1 = detectOsSpec attrErrorProbe
    ∧ (detectOs attrErrorProbe).1 = "unknown"
    ∧ LogEntry.warn "mac" "python3"
        "AttributeError: run command helper is missing"
        ∈ (detectOs attrErrorProbe).2 := by
  have h := claim_C5_probe_errors_nonfatal attrErrorProbe
  have hall : (osChecks.all fun c => !candidateMatches attrErrorProbe c)
      = true := by decide
  exact ⟨hall, h.1, (h.2 hall).1,
    (h.2 hall).2 "mac" "mac.info" "python3"
      "AttributeError: run command helper is missing"
      (by decide) (by decide) rfl⟩

/-- Claim C6 evaluation: for every target OS other than `windows`,
`_get_plugins_for_scan` raises nothing and returns no list at all —
Python falls off the end of the function and yields `None` — rather than
failing with an UnsupportedPlatform error as the claim states. -/
theorem claim_C6_nonwindows_silent_none
    (jsonFile : Except String (String → Option (List String)))
    (st os : String) (h : os ≠ "windows") :
    getPluginsForScanA jsonFile st os = .ok none := by
  simp only [getPluginsForScanA]
  rw [if_neg h]

/-- Concrete instance for claim C6: requesting the linux catalog returns
`None` silently, whatever the configuration file holds. -/
theorem claim_C6_witness :
    ("linux" : String) ≠ "windows"
    ∧ getPluginsForScanA (.error "FileNotFoundError") "normal" "linux"
        = .ok none :=
  ⟨by decide,
    claim_C6_nonwindows_silent_none (.error "FileNotFoundError")
      "normal" "linux" (by decide)⟩

/-- Claim C7: the output and error file names are a deterministic
function of the plugin id alone, so rerunning a plugin overwrites the
previous output regardless of the directory's prior contents; and over
each of the catalog's plugin lists the dot-to-underscore derivation is
injective: distinct plugins get distinct file-name pairs. -/
theorem claim_C7_filename_injectivity :
    (∀ (fs : FS) (log : List LogEntry) (so se : Bytes) (p : String),
      (runVolPlugin (fun _ => .ok (so, se)) (fs, log) p).1 (outFileName p)
        = some so)
    ∧ minimalScanList.Pairwise
        (fun a b => outFileName a ≠ outFileName b
          ∧ errFileName a ≠ errFileName b)
    ∧ normalScanList.Pairwise
        (fun a b => outFileName a ≠ outFileName b
          ∧ errFileName a ≠ errFileName b)
    ∧ fullScanList.Pairwise
        (fun a b => outFileName a ≠ outFileName b
          ∧ errFileName a ≠ errFileName b) := by
  refine ⟨fun fs log so se p =>
    runVolPlugin_out (fun _ => .ok (so, se)) (fs, log) p so se rfl,
    ?_, ?_, ?_⟩ <;> decide

/-- Claim C8: in the analyzer.py revision `_run_plugin` reads the
attribute `PYTHON`, which `__init__` never assigns (it assigns `PYTHON3`),
so every invocation takes the exception branch: an error naming the
plugin is logged, the file store is untouched, and neither the output
file nor the error file is written. -/
theorem claim_C8_python_attribute_missing :
    getattrSelf "PYTHON" = none
    ∧ "PYTHON3" ∈ analyzerInstanceAttrs
    ∧ ∀ (exec : String → Except String (Bytes × Bytes))
        (s : FS × List LogEntry) (p : String),
        runPluginAnalyzerRev exec s p
          = (s.1, s.2 ++ [LogEntry.error p "AttributeError: PYTHON"]) := by
  refine ⟨rfl, by decide, fun exec s p => ?_⟩
  rfl

/-- Claim C9: the `full` scan list of autovol3.py, because of the missing
comma between the `windows.sessions` and `windows.modules` literals,
contains their concatenation as a single malformed id: a full scan runs
14 plugins, neither `windows.sessions` nor `windows.modules` appears
individually, and the concatenated id is what gets passed on. -/
theorem claim_C9_full_list_concatenation :
    selectPlugins "full" = fullScanList
    ∧ fullScanList.length = 14
    ∧ "windows.sessions" ∉ fullScanList
    ∧ "windows.modules" ∉ fullScanList
    ∧ ("windows.sessions" ++ "windows.modules" : String)
        = "windows.sessionswindows.modules"
    ∧ "windows.sessionswindows.modules" ∈ fullScanList := by
  exact ⟨rfl, rfl, by decide, by decide, rfl, by decide⟩

/-- Claim C10: `VolatilityAnalyzer.__init__` opens the log file inside
the output directory during `_setup_logging`, and nothing has created
that directory yet (`run_analysis` calls mkdir only later), so
construction with any not-yet-existing output directory — including the
default fresh timestamped one — raises FileNotFoundError before any
analysis can start. -/
theorem claim_C10_init_raises_on_missing_dir
    (dirs : List String) (arg : Option String) (tsdir : String)
    (h : arg.getD tsdir ∉ dirs) :
    analyzerInit dirs arg tsdir = .error "FileNotFoundError" := by
  simp only [analyzerInit, fileHandlerOpen]
  rw [if_neg h]

/-- Concrete instance of claim C10: only `/tmp` exists on disk and no
output directory was passed, so the default fresh timestamped directory
does not exist and construction fails. -/
theorem claim_C10_witness :
    Option.getD none "/tmp/volatility_analysis_2026-10-12_12:00:00"
        ∉ (["/tmp"] : List String)
    ∧ analyzerInit ["/tmp"] none
        "/tmp/volatility_analysis_2026-10-12_12:00:00"
        = .error "FileNotFoundError" :=
  ⟨by decide,
    claim_C10_init_raises_on_missing_dir ["/tmp"] none
      "/tmp/volatility_analysis_2026-10-12_12:00:00" (by decide)⟩

end AutoVol
